import Mathlib

/-!
Verification development for the `mercia` client-registry service
(`src/app.py`, `src/dbcenter.py`).

The service persists `Client` records either through a hosted table service
(Supabase, selected when both `SUPABASE_URL` and `SUPABASE_KEY` are truthy)
or through a direct psycopg2 connection pool.  Machine integers are modelled
as `Nat`; SQL `NULL` / Python `None` as `Option`; Python exceptions as
`Except PyError`.  Timestamps (`created_at`, `TIMESTAMPTZ`) are modelled as
`Option Nat` instants; the direct-mode database carries a logical clock that
plays the role of `now()`.
-/

namespace Mercia

/-- Python exceptions observed by the code: `RuntimeError(msg)` raised
explicitly by `dbcenter`, and `AttributeError` raised when an attribute or
method (such as `.get` on a non-dict response object) is missing. -/
inductive PyError where
  | runtimeError (msg : String)
  | attributeError
deriving Repr, DecidableEq

/-- A stored client row, as selected by
`SELECT id, name, address, phone, created_at FROM clients` in
`dbcenter.get_clients` (direct mode) or returned by the hosted table service.
`created_at` is nullable in the schema (`TIMESTAMPTZ DEFAULT now()`, no
`NOT NULL`). -/
structure Row where
  id : Nat
  name : String
  address : Option String
  phone : Option String
  created_at : Option Nat
deriving Repr, DecidableEq

/-- The dict `{"id": ..., "created_at": ...}` returned by
`dbcenter.insert_client`. -/
structure Inserted where
  id : Nat
  created_at : Option Nat
deriving Repr, DecidableEq

/-- The psycopg2 `SimpleConnectionPool`, abstracted to its outstanding
checkout count (`getconn` increments it, `putconn` decrements it).  The
min/max sizing arguments of `init_pool` (defaults 1 and 5) do not affect any
verified property and are not tracked. -/
structure Pool where
  checkedOut : Nat
deriving Repr, DecidableEq

/-- Direct-mode database state: the `clients` table contents, the next value
of the `id SERIAL` sequence, a logical clock supplying `now()`, and whether
`CREATE TABLE IF NOT EXISTS` has run. -/
structure DB where
  rows : List Row
  nextId : Nat
  now : Nat
  tableCreated : Bool
deriving Repr, DecidableEq

/-- The environment configuration read at the top of `dbcenter.py`:
`SUPABASE_URL` and `SUPABASE_KEY` (each possibly unset). -/
structure Config where
  supabaseUrl : Option String
  supabaseKey : Option String
deriving Repr, DecidableEq

/-- Python truthiness of an optional string: `None` and `""` are falsy. -/
def truthy : Option String → Bool
  | none => false
  | some s => !s.data.isEmpty

/-- The backend selector `if SUPABASE_URL and SUPABASE_KEY:` used by every
operation in `dbcenter.py`. -/
def hostedMode (c : Config) : Bool :=
  truthy c.supabaseUrl && truthy c.supabaseKey

/-- Python `str(x)` applied to a possibly-`None` number: `str(None)` is the
four-character string `"None"`. -/
def pyStrNat : Option Nat → String
  | none => "None"
  | some n => toString n

/-- Python `str(err)` applied to the unwrapped error value of a hosted
response: `str(None)` is `"None"`. -/
def pyStrErr : Option String → String
  | none => "None"
  | some s => s

/-- Python `str(e)` of a raised exception, as used by the HTTP handlers for
the 500 detail text. -/
def pyErrMsg : PyError → String
  | .runtimeError m => m
  | .attributeError => "AttributeError"

/-! ## Connection pool (`dbcenter.init_pool` / `get_conn` / `put_conn` /
`close_pool`, lines 39-73)

The module-global `_pool` is modelled as an explicit `Option Pool` value
threaded through the operations.  `avail` models whether importing the
`psycopg2` driver succeeds. -/

/-- The `RuntimeError` message `init_pool` raises when the psycopg2 import
fails (dbcenter.py line 46). -/
def psycopg2MissingMsg : String :=
  "Pacote \"psycopg2-binary\" nao esta instalado. Execute: pip install psycopg2-binary"

/-- `init_pool` (dbcenter.py lines 39-55): creates a pool only when `_pool`
is `None`; raises `RuntimeError` when psycopg2 is missing.  It never consults
the Supabase configuration.  On success the pool that is now installed is
returned. -/
def init_pool (avail : Bool) (s : Option Pool) : Except PyError Pool :=
  match s with
  | some p => .ok p
  | none =>
      if avail then .ok ⟨0⟩
      else .error (.runtimeError psycopg2MissingMsg)

/-- `get_conn` (dbcenter.py lines 58-61): lazily calls `init_pool` when
`_pool is None`, then checks a connection out (`getconn`).  The result is the
pool state after the checkout; the connection object itself is abstracted
away. -/
def get_conn (avail : Bool) (s : Option Pool) : Except PyError Pool :=
  match init_pool avail s with
  | .error e => .error e
  | .ok q => .ok ⟨q.checkedOut + 1⟩

/-- `put_conn` (dbcenter.py lines 64-66): returns a connection to the pool
when one exists. -/
def put_conn : Option Pool → Option Pool
  | none => none
  | some q => some ⟨q.checkedOut - 1⟩

/-- `close_pool` (dbcenter.py lines 69-73): closes every connection and
discards the pool (`_pool = None`). -/
def close_pool (_ : Option Pool) : Option Pool := none

/-! ## Ordering used by `ORDER BY created_at DESC`

PostgreSQL sorts `DESC` with `NULLS FIRST` by default, so a `NULL`
`created_at` sorts before every concrete timestamp. -/

/-- `caGe a b` holds when a row with timestamp `a` may appear no later than a
row with timestamp `b` in the `ORDER BY created_at DESC` output (`none` =
SQL `NULL`, placed first). -/
def caGe : Option Nat → Option Nat → Bool
  | none, _ => true
  | some _, none => false
  | some x, some y => decide (y ≤ x)

/-- The row order produced by `ORDER BY created_at DESC`. -/
def rowGe (a b : Row) : Prop := caGe a.created_at b.created_at = true

instance : DecidableRel rowGe := fun a b => by unfold rowGe; infer_instance

/-- Insertion step of the sort modelling `ORDER BY created_at DESC`. -/
def insertDesc (r : Row) : List Row → List Row
  | [] => [r]
  | x :: xs => if caGe r.created_at x.created_at then r :: x :: xs else x :: insertDesc r xs

/-- Sort modelling `ORDER BY created_at DESC` (most recent first, `NULL`
first). -/
def sortByCreatedAtDesc : List Row → List Row
  | [] => []
  | x :: xs => insertDesc x (sortByCreatedAtDesc xs)

/-- Semantics of
`SELECT id, name, address, phone, created_at FROM clients ORDER BY created_at DESC LIMIT limit`
over table contents `rows`, and likewise of the hosted query
`select('*').order('created_at', desc=True).limit(limit)`. -/
def selectClientsDesc (rows : List Row) (limit : Nat) : List Row :=
  (sortByCreatedAtDesc rows).take limit

/-! ## Hosted-table (Supabase) mode

`dbcenter.py`'s own comment says the hosted execute result "pode ser um
objeto com .data ou um dict" (may be an object with `.data` or a dict).  The
real Supabase response object exposes `data`/`error` attributes and has no
dict-style `.get` method; a dict exposes `.get` but attribute lookup via
`getattr(res, 'data', None)` yields `None` on it. -/

/-- A hosted-service execute result as the unwrapping code distinguishes
them: an attribute-carrying object without `.get`, or a plain dict with
optional `data`/`error` keys. -/
inductive Resp where
  | obj (data : Option (List Row)) (error : Option String)
  | dict (data : Option (List Row)) (error : Option String)
deriving Repr, DecidableEq

/-- `data = getattr(res, 'data', None) or res.get('data')` inside
`try/except` (dbcenter.py lines 119-122 and 150-154).  On an object response
a falsy attribute value (`None` or the empty list) makes Python evaluate
`res.get('data')`, which raises `AttributeError`; the `except` then leaves
`data = None`.  On a dict, `getattr` yields `None` and `res.get('data')`
yields the key's value (possibly `None` or `[]`). -/
def unwrapData : Resp → Option (List Row)
  | .obj (some l) _ => if l.isEmpty then none else some l
  | .obj none _ => none
  | .dict d _ => d

/-- `err = getattr(res, 'error', None) or res.get('error')` with no
surrounding `try` (dbcenter.py lines 125 and 156).  On an object response a
falsy `error` attribute (`None` or `""`) makes Python call the missing
`.get`, so `AttributeError` escapes to the caller. -/
def unwrapErr : Resp → Except PyError (Option String)
  | .obj _ (some s) => if s.data.isEmpty then .error .attributeError else .ok (some s)
  | .obj _ none => .error .attributeError
  | .dict _ e => .ok e

/-- Hosted-mode branch of `dbcenter.insert_client` (lines 113-128): send the
insert, unwrap `data`; `if not data:` (so `None` and `[]` are both failures)
unwrap the error and raise `RuntimeError('Falha ao inserir no Supabase: ' +
str(err))`; otherwise return `{"id": row.get('id'), "created_at":
row.get('created_at')}` from the first returned row. -/
def insert_client_hosted (r : Resp) : Except PyError Inserted :=
  match unwrapData r with
  | some (row :: _) => .ok ⟨row.id, row.created_at⟩
  | _ =>
      match unwrapErr r with
      | .error e => .error e
      | .ok err => .error (.runtimeError ("Falha ao inserir no Supabase: " ++ pyStrErr err))

/-- Hosted-mode branch of `dbcenter.get_clients` (lines 147-158): unwrap
`data`; `if data is None:` (an empty list that survives unwrapping is a
valid result) unwrap the error and raise `RuntimeError('Falha ao listar
clientes no Supabase: ' + str(err))`; otherwise return the data rows
unchanged. -/
def get_clients_hosted (r : Resp) : Except PyError (List Row) :=
  match unwrapData r with
  | some l => .ok l
  | none =>
      match unwrapErr r with
      | .error e => .error e
      | .ok err => .error (.runtimeError ("Falha ao listar clientes no Supabase: " ++ pyStrErr err))

/-- Modelled from the spec: the hosted table service is external to this
repository.  An honest service holding `store` answers the exact query the
code issues — `select('*').order('created_at', desc=True).limit(limit)` —
with the ordered, limited rows in the object response shape the Supabase
client produces, with no error. -/
def hostedListResp (store : List Row) (limit : Nat) : Resp :=
  .obj (some (selectClientsDesc store limit)) none

/-- `startsWithChars needle hay`: the character list `needle` begins the
character list `hay`. -/
def startsWithChars : List Char → List Char → Bool
  | [], _ => true
  | _ :: _, [] => false
  | a :: as, b :: bs => a == b && startsWithChars as bs

/-- `containsChars needle hay`: the character list `needle` occurs
contiguously somewhere in `hay`.  Used to state whether an error message
carries a given piece of text. -/
def containsChars (needle : List Char) : List Char → Bool
  | [] => startsWithChars needle []
  | b :: bs => startsWithChars needle (b :: bs) || containsChars needle bs

/-- String-level occurrence check: `mentions hay needle` holds when `needle`
occurs contiguously in `hay`. -/
def mentions (hay needle : String) : Bool :=
  containsChars needle.data hay.data

/-! ## Direct-pool mode -/

instance {ε α : Type} [DecidableEq ε] [DecidableEq α] : DecidableEq (Except ε α) := fun
  | .ok a, .ok b =>
      if h : a = b then .isTrue (by simp [h]) else .isFalse (by simp [h])
  | .ok _, .error _ => .isFalse (by simp)
  | .error _, .ok _ => .isFalse (by simp)
  | .error e, .error f =>
      if h : e = f then .isTrue (by simp [h]) else .isFalse (by simp [h])

/-- Outcome of a direct-mode `insert_client` call: the returned dict or the
raised exception, the database afterwards, the pool afterwards, and how many
times `put_conn` ran during the call. -/
structure InsertOutcome where
  result : Except PyError Inserted
  db : DB
  pool : Option Pool
  releases : Nat
deriving Repr, DecidableEq

/-- Outcome of a direct-mode `get_clients` call. -/
structure GetOutcome where
  result : Except PyError (List Row)
  pool : Option Pool
  releases : Nat
deriving Repr, DecidableEq

/-- Direct-mode branch of `dbcenter.insert_client` (lines 130-142):
`conn = get_conn()`, then inside `try`, execute
`INSERT INTO clients (name, address, phone) VALUES (%s,%s,%s) RETURNING id, created_at`,
commit and return `{"id": row[0], "created_at": row[1]}`; the `finally`
block always runs `put_conn(conn)`.  `stmtFails` models the SQL statement
raising; the new row receives the serial id `db.nextId` and timestamp
`now()` = `db.now`. -/
def insert_client_direct (avail stmtFails : Bool) (db : DB) (s : Option Pool)
    (name : String) (address phone : Option String) : InsertOutcome :=
  match get_conn avail s with
  | .error e => ⟨.error e, db, s, 0⟩
  | .ok q =>
      if stmtFails then
        ⟨.error (.runtimeError "erro ao executar INSERT"), db, put_conn (some q), 1⟩
      else
        ⟨.ok ⟨db.nextId, some db.now⟩,
         ⟨db.rows ++ [⟨db.nextId, name, address, phone, some db.now⟩],
          db.nextId + 1, db.now + 1, db.tableCreated⟩,
         put_conn (some q), 1⟩

/-- Direct-mode branch of `dbcenter.get_clients` (lines 159-179):
`conn = get_conn()`, then inside `try`, execute the ordered, limited SELECT
and build the row dicts; the `finally` block always runs `put_conn(conn)`. -/
def get_clients_direct (avail stmtFails : Bool) (db : DB) (s : Option Pool)
    (limit : Nat) : GetOutcome :=
  match get_conn avail s with
  | .error e => ⟨.error e, s, 0⟩
  | .ok q =>
      if stmtFails then
        ⟨.error (.runtimeError "erro ao executar SELECT"), put_conn (some q), 1⟩
      else
        ⟨.ok (selectClientsDesc db.rows limit), put_conn (some q), 1⟩

/-- `dbcenter.get_clients`'s Python default argument `limit=100`
(line 145). -/
def get_clients_direct_default (avail stmtFails : Bool) (db : DB) (s : Option Pool) : GetOutcome :=
  get_clients_direct avail stmtFails db s 100

/-- Direct-mode branch of `dbcenter.create_clients_table` (lines 91-107):
acquire a connection, run `CREATE TABLE IF NOT EXISTS clients (...)`, commit,
return `True`, releasing the connection in `finally`. -/
def create_clients_table_direct (avail : Bool) (db : DB) (s : Option Pool) :
    Except PyError (Bool × DB × Option Pool) :=
  match get_conn avail s with
  | .error e => .error e
  | .ok q => .ok (true, ⟨db.rows, db.nextId, db.now, true⟩, put_conn (some q))

/-! ## HTTP service (`app.py`) -/

/-- Python `str.strip()` on the character list: drop leading and trailing
whitespace. -/
def stripChars (l : List Char) : List Char :=
  ((l.dropWhile Char.isWhitespace).reverse.dropWhile Char.isWhitespace).reverse

/-- Python `str.strip()`, the operation pydantic's `strip_whitespace=True`
applies to incoming string fields. -/
def pyStrip (s : String) : String := ⟨stripChars s.data⟩

/-- The raw JSON body of `POST /api/clients` before pydantic validation. -/
structure RawClientIn where
  name : String
  address : Option String
  phone : Option String
deriving Repr, DecidableEq

/-- A validated `ClientIn` (app.py lines 20-23): `name` stripped of
surrounding whitespace and non-empty, `address`/`phone` stripped when
present. -/
structure ClientIn where
  name : String
  address : Option String
  phone : Option String
deriving Repr, DecidableEq

/-- Pydantic validation of `ClientIn` (app.py lines 20-23):
`constr(strip_whitespace=True, min_length=1)` for `name` — strip first, then
require length ≥ 1 — and `Optional[constr(strip_whitespace=True)]` for
`address` and `phone`.  FastAPI runs this before the handler; `none` models
the 422 rejection. -/
def validateClientIn (raw : RawClientIn) : Option ClientIn :=
  let n := pyStrip raw.name
  if n.data.isEmpty then none
  else some ⟨n, raw.address.map pyStrip, raw.phone.map pyStrip⟩

/-- HTTP response of `POST /api/clients`: 422 from validation, 200 with the
`ClientOut` body, or 500 with the exception text. -/
inductive CreateResponse where
  | validationError
  | ok (id : Nat) (created_at : String) (name : String) (address phone : Option String)
  | serverError (detail : String)
deriving Repr, DecidableEq

/-- Outcome of one `POST /api/clients` request in direct-pool mode:
the response, the states afterwards, and whether `insert_client` was
called at all. -/
structure CreateOutcome where
  response : CreateResponse
  db : DB
  pool : Option Pool
  insertCalled : Bool
deriving Repr, DecidableEq

/-- `app.create_client` (app.py lines 42-48) serving direct-pool mode,
including FastAPI's prior body validation: on validation failure the handler
never runs; otherwise `insert_client(payload.name, payload.address,
payload.phone)` is called and the 200 body is
`{"id": inserted["id"], "created_at": str(inserted["created_at"]),
**payload.dict()}` — name, address and phone spread from the payload, never
read back from storage.  Any exception becomes
`HTTPException(500, str(e))`. -/
def create_client_direct (avail stmtFails : Bool) (db : DB) (s : Option Pool)
    (raw : RawClientIn) : CreateOutcome :=
  match validateClientIn raw with
  | none => ⟨.validationError, db, s, false⟩
  | some c =>
      let o := insert_client_direct avail stmtFails db s c.name c.address c.phone
      match o.result with
      | .ok ins => ⟨.ok ins.id (pyStrNat ins.created_at) c.name c.address c.phone, o.db, o.pool, true⟩
      | .error e => ⟨.serverError (pyErrMsg e), o.db, o.pool, true⟩

/-- One serialized record of the `GET /api/clients` handler body
(app.py lines 57-64): `created_at` normalized to
`str(...) if ... is not None else None`. -/
structure OutRow where
  id : Nat
  name : String
  address : Option String
  phone : Option String
  created_at : Option String
deriving Repr, DecidableEq

/-- The normalization loop body of `app.list_clients` (lines 57-64). -/
def serializeRow (r : Row) : OutRow :=
  ⟨r.id, r.name, r.address, r.phone, r.created_at.map toString⟩

/-- FastAPI's validation of the handler result against
`response_model=List[ClientOut]` (app.py lines 25-27, 51): `ClientOut`
declares `created_at: str` — required and not `Optional`, so `None` is
rejected — and inherits `name: constr(strip_whitespace=True, min_length=1)`.
The model's re-stripping of already produced values is not tracked (it is
the identity on every row this system writes). -/
def clientOutValid (o : OutRow) : Bool :=
  o.created_at.isSome && !(pyStrip o.name).data.isEmpty

/-- HTTP response of `GET /api/clients`. -/
inductive ListResponse where
  | ok (rows : List OutRow)
  | serverError (detail : String)
deriving Repr, DecidableEq

/-- `app.list_clients` (app.py lines 51-67) serving direct-pool mode: call
`get_clients(limit=limit)`, normalize each row, then FastAPI checks the
result against `response_model=List[ClientOut]`; a row that violates the
response model makes the request fail with a server error. -/
def list_clients_endpoint (avail stmtFails : Bool) (db : DB) (s : Option Pool)
    (limit : Nat) : ListResponse × Option Pool :=
  let g := get_clients_direct avail stmtFails db s limit
  match g.result with
  | .error e => (.serverError (pyErrMsg e), g.pool)
  | .ok rows =>
      let out := rows.map serializeRow
      if out.all clientOutValid then (.ok out, g.pool)
      else (.serverError "erro de validacao da resposta", g.pool)

/-- The endpoint's query-parameter default `limit: int = 100`
(app.py line 52). -/
def list_clients_endpoint_default (avail stmtFails : Bool) (db : DB)
    (s : Option Pool) : ListResponse × Option Pool :=
  list_clients_endpoint avail stmtFails db s 100

/-- `app.startup_event` (app.py lines 30-34): call `init_pool()`
unconditionally, then `create_clients_table()`.  In hosted mode the table
check probes the service with a one-row select inside `try/except` and
returns a boolean (`probeOk`); in direct mode it issues the conditional
create.  Returns the table-check result and the states afterwards. -/
def startup_event (cfg : Config) (avail probeOk : Bool) (db : DB) (s : Option Pool) :
    Except PyError (Bool × DB × Option Pool) :=
  match init_pool avail s with
  | .error e => .error e
  | .ok q =>
      if hostedMode cfg then .ok (probeOk, db, some q)
      else create_clients_table_direct avail db (some q)

/-- `app.shutdown_event` (app.py lines 37-39): drain the pool. -/
def shutdown_event (s : Option Pool) : Option Pool := close_pool s

/-! ## Properties of the `ORDER BY created_at DESC` model -/

lemma caGe_total (a b : Option Nat) : caGe a b = true ∨ caGe b a = true := by
  cases a <;> cases b <;> simp [caGe]
  omega

lemma caGe_trans {a b c : Option Nat} (h₁ : caGe a b = true) (h₂ : caGe b c = true) :
    caGe a c = true := by
  cases a <;> cases b <;> cases c <;> simp [caGe] at *
  omega

lemma mem_insertDesc {r y : Row} : ∀ {l : List Row}, y ∈ insertDesc r l ↔ y = r ∨ y ∈ l := by
  intro l
  induction l with
  | nil => simp [insertDesc]
  | cons x xs ih =>
      simp only [insertDesc]
      split
      · simp [List.mem_cons]
      · simp [List.mem_cons, ih]; tauto

lemma length_insertDesc (r : Row) : ∀ l : List Row, (insertDesc r l).length = l.length + 1 := by
  intro l
  induction l with
  | nil => simp [insertDesc]
  | cons x xs ih =>
      simp only [insertDesc]
      split
      · simp
      · simp [ih]

lemma pairwise_insertDesc {r : Row} : ∀ {l : List Row},
    l.Pairwise rowGe → (insertDesc r l).Pairwise rowGe := by
  intro l h
  induction l with
  | nil => simp [insertDesc, rowGe]
  | cons x xs ih =>
      rcases List.pairwise_cons.mp h with ⟨hx, hxs⟩
      by_cases hc : caGe r.created_at x.created_at = true
      · simp only [insertDesc, hc, if_true]
        refine List.pairwise_cons.mpr ⟨?_, h⟩
        intro y hy
        rcases List.mem_cons.mp hy with rfl | hmem
        · exact hc
        · exact caGe_trans hc (hx y hmem)
      · simp only [insertDesc, hc, if_false]
        refine List.pairwise_cons.mpr ⟨?_, ih hxs⟩
        intro y hy
        rcases mem_insertDesc.mp hy with hEq | hmem
        · rw [hEq]
          rcases caGe_total r.created_at x.created_at with h₁ | h₂
          · exact absurd h₁ hc
          · exact h₂
        · exact hx y hmem

lemma pairwise_sortByCreatedAtDesc : ∀ l : List Row, (sortByCreatedAtDesc l).Pairwise rowGe := by
  intro l
  induction l with
  | nil => simp [sortByCreatedAtDesc]
  | cons x xs ih => exact pairwise_insertDesc ih

lemma mem_sortByCreatedAtDesc {y : Row} : ∀ {l : List Row},
    y ∈ sortByCreatedAtDesc l ↔ y ∈ l := by
  intro l
  induction l with
  | nil => simp [sortByCreatedAtDesc]
  | cons x xs ih => simp [sortByCreatedAtDesc, mem_insertDesc, ih]

lemma length_sortByCreatedAtDesc : ∀ l : List Row,
    (sortByCreatedAtDesc l).length = l.length := by
  intro l
  induction l with
  | nil => rfl
  | cons x xs ih => simp [sortByCreatedAtDesc, length_insertDesc, ih]

lemma pairwise_selectClientsDesc (rows : List Row) (limit : Nat) :
    (selectClientsDesc rows limit).Pairwise rowGe :=
  (pairwise_sortByCreatedAtDesc rows).sublist (List.take_sublist _ _)

lemma length_selectClientsDesc_le (rows : List Row) (limit : Nat) :
    (selectClientsDesc rows limit).length ≤ limit := by
  simp [selectClientsDesc]

lemma selectClientsDesc_of_length_le {rows : List Row} {limit : Nat}
    (h : rows.length ≤ limit) : selectClientsDesc rows limit = sortByCreatedAtDesc rows := by
  unfold selectClientsDesc
  apply List.take_of_length_le
  rw [length_sortByCreatedAtDesc]
  exact h

lemma mem_selectClientsDesc {rows : List Row} {limit : Nat} {y : Row}
    (h : rows.length ≤ limit) (hy : y ∈ rows) : y ∈ selectClientsDesc rows limit := by
  rw [selectClientsDesc_of_length_le h]
  exact mem_sortByCreatedAtDesc.mpr hy

/-- Validation of a payload whose stripped name is non-empty succeeds with
the stripped field values. -/
lemma validateClientIn_some {raw : RawClientIn}
    (h : (pyStrip raw.name).data.isEmpty = false) :
    validateClientIn raw =
      some ⟨pyStrip raw.name, raw.address.map pyStrip, raw.phone.map pyStrip⟩ := by
  unfold validateClientIn
  simp [h]

/-! ## Claims -/

/-- Claim C1: "list-clients with no client records returns an empty sequence
rather than raising an error, in both modes."  In direct-pool mode an empty
table does yield `.ok []`, and a dict-shaped hosted response with `data=[]`
also yields `.ok []`; but the object-shaped hosted response the Supabase
client produces for an empty table (`data=[]`, `error=None`) makes
`get_clients` raise `AttributeError`: the empty list is falsy, so the data
unwrapper falls through to the missing `.get` method, and the error
unwrapper then does the same outside any `try`. -/
theorem c1_list_empty :
    get_clients_hosted (.obj (some []) none) = .error .attributeError ∧
    get_clients_hosted (.dict (some []) none) = .ok [] ∧
    (∀ (avail : Bool) (db : DB) (p : Pool) (limit : Nat), db.rows = [] →
      (get_clients_direct avail false db (some p) limit).result = .ok []) := by
  refine ⟨rfl, rfl, ?_⟩
  intro avail db p limit h
  simp [get_clients_direct, get_conn, init_pool, selectClientsDesc, h, sortByCreatedAtDesc]

/-- Witness for `c1_list_empty`: the direct-mode conjunct evaluated on the
empty table. -/
theorem c1_list_empty_witness :
    (get_clients_direct true false ⟨[], 1, 0, true⟩ (some ⟨0⟩) 100).result = .ok [] :=
  c1_list_empty.2.2 true ⟨[], 1, 0, true⟩ ⟨0⟩ 100 rfl

/-- Claim C2, counterexample: with both Supabase settings present (hosted
mode) and psycopg2 importable, `startup_event` still creates a connection
pool — `init_pool` is not a no-op in hosted mode, because neither
`app.startup_event` nor `dbcenter.init_pool` consults the backend
selector. -/
theorem c2_counterexample :
    hostedMode ⟨some "https://exemplo.supabase.co", some "chave"⟩ = true ∧
    startup_event ⟨some "https://exemplo.supabase.co", some "chave"⟩ true true
      ⟨[], 1, 0, false⟩ none = .ok (true, ⟨[], 1, 0, false⟩, some ⟨0⟩) ∧
    init_pool true none = .ok ⟨0⟩ := by
  exact ⟨rfl, rfl, rfl⟩

/-- Claim C2 (amended): at startup the HTTP service calls `init_pool`
unconditionally, in hosted mode as well as in direct mode; `init_pool`
creates a psycopg2 pool whenever none exists (raising when the driver is
unavailable, again in both modes), and then the clients table is verified
(hosted probe) or created (direct `CREATE TABLE IF NOT EXISTS`). -/
theorem c2_amended (cfg : Config) (probeOk : Bool) (db : DB) :
    startup_event cfg true probeOk db none =
      (if hostedMode cfg then .ok (probeOk, db, some ⟨0⟩)
       else .ok (true, ⟨db.rows, db.nextId, db.now, true⟩, some ⟨0⟩)) ∧
    startup_event cfg false probeOk db none =
      .error (.runtimeError psycopg2MissingMsg) := by
  constructor
  · by_cases h : hostedMode cfg = true <;>
      simp [startup_event, init_pool, h, create_clients_table_direct, get_conn, put_conn]
  · simp [startup_event, init_pool]

/-- Claim C3: a create request whose name strips to the empty string is
rejected by validation with no `insert_client` call and no state change; an
accepted request reaches the handler with `name`, `address` and `phone`
stripped of surrounding whitespace. -/
theorem c3_validation (raw : RawClientIn) (avail stmtFails : Bool) (db : DB)
    (s : Option Pool) :
    ((pyStrip raw.name).data.isEmpty = true →
      create_client_direct avail stmtFails db s raw = ⟨.validationError, db, s, false⟩) ∧
    (∀ c, validateClientIn raw = some c →
      (create_client_direct avail stmtFails db s raw).insertCalled = true ∧
      c.name = pyStrip raw.name ∧
      c.address = raw.address.map pyStrip ∧
      c.phone = raw.phone.map pyStrip ∧
      (pyStrip raw.name).data.isEmpty = false) := by
  constructor
  · intro h
    simp [create_client_direct, validateClientIn, h]
  · intro c hc
    have hne : (pyStrip raw.name).data.isEmpty = false := by
      by_contra hcon
      have h : (pyStrip raw.name).data.isEmpty = true := by
        cases hval : (pyStrip raw.name).data.isEmpty
        · exact absurd hval hcon
        · rfl
      simp [validateClientIn, h] at hc
    have hval := validateClientIn_some hne
    rw [hval] at hc
    cases hc
    refine ⟨?_, rfl, rfl, rfl, hne⟩
    simp only [create_client_direct, hval]
    cases hres : (insert_client_direct avail stmtFails db s (pyStrip raw.name)
        (raw.address.map pyStrip) (raw.phone.map pyStrip)).result <;> rfl

/-- Witness for `c3_validation`: a whitespace-only name is rejected without
touching the adapter, and a padded payload is stripped. -/
theorem c3_validation_witness :
    create_client_direct true false ⟨[], 1, 0, true⟩ (some ⟨0⟩) ⟨"   ", some "x", none⟩ =
      ⟨.validationError, ⟨[], 1, 0, true⟩, some ⟨0⟩, false⟩ ∧
    ((create_client_direct true false ⟨[], 1, 0, true⟩ (some ⟨0⟩)
        ⟨" Ana ", some " Rua 1 ", none⟩).insertCalled = true ∧
      ("Ana" : String) = pyStrip " Ana " ∧
      (some "Rua 1" : Option String) = (some " Rua 1 " : Option String).map pyStrip ∧
      (none : Option String) = (none : Option String).map pyStrip ∧
      (pyStrip " Ana ").data.isEmpty = false) :=
  ⟨(c3_validation ⟨"   ", some "x", none⟩ true false ⟨[], 1, 0, true⟩ (some ⟨0⟩)).1 (by decide),
   (c3_validation ⟨" Ana ", some " Rua 1 ", none⟩ true false ⟨[], 1, 0, true⟩ (some ⟨0⟩)).2
     ⟨"Ana", some "Rua 1", none⟩ (by decide)⟩

/-- Claim C4: direct-mode list returns exactly the `ORDER BY created_at
DESC LIMIT limit` rows — pairwise ordered most recent first and at most
`limit` long — the `limit` parameter defaults to 100 both in
`dbcenter.get_clients` and in the endpoint, and any hosted-mode success
returns precisely the ordered, limited rows of the service. -/
theorem c4_list_order_limit_default (avail : Bool) (db : DB) (p : Pool)
    (limit : Nat) (store : List Row) :
    (get_clients_direct avail false db (some p) limit).result =
      .ok (selectClientsDesc db.rows limit) ∧
    (selectClientsDesc db.rows limit).Pairwise rowGe ∧
    (selectClientsDesc db.rows limit).length ≤ limit ∧
    get_clients_direct_default avail false db (some p) =
      get_clients_direct avail false db (some p) 100 ∧
    list_clients_endpoint_default avail false db (some p) =
      list_clients_endpoint avail false db (some p) 100 ∧
    (∀ l, get_clients_hosted (hostedListResp store limit) = .ok l →
      l = selectClientsDesc store limit) := by
  refine ⟨?_, pairwise_selectClientsDesc db.rows limit,
    length_selectClientsDesc_le db.rows limit, rfl, rfl, ?_⟩
  · simp [get_clients_direct, get_conn, init_pool]
  · intro l hl
    by_cases hemp : (selectClientsDesc store limit).isEmpty = true
    · simp [get_clients_hosted, hostedListResp, unwrapData, unwrapErr, hemp] at hl
    · simp only [Bool.not_eq_true] at hemp
      simp [get_clients_hosted, hostedListResp, unwrapData, hemp] at hl
      exact hl.symm

/-- Witness for `c4_list_order_limit_default`: the hosted conjunct applied
to a one-row service answering with limit 1. -/
theorem c4_list_order_limit_default_witness :
    ([⟨1, "Ana", none, none, some 3⟩] : List Row) =
      selectClientsDesc [⟨1, "Ana", none, none, some 3⟩] 1 :=
  (c4_list_order_limit_default true ⟨[], 1, 0, true⟩ ⟨0⟩ 1
      [⟨1, "Ana", none, none, some 3⟩]).2.2.2.2.2
    [⟨1, "Ana", none, none, some 3⟩] (by decide)

/-- Claim C5, counterexample: a hosted insert whose dict-shaped response
carries neither data nor error raises `RuntimeError` whose message ends in
Python's `str(None)` — the literal text `None` — and never mentions
`unknown`. -/
theorem c5_counterexample :
    insert_client_hosted (.dict none none) =
      .error (.runtimeError "Falha ao inserir no Supabase: None") ∧
    mentions "Falha ao inserir no Supabase: None" "unknown" = false := by
  exact ⟨rfl, by decide⟩

/-- Claim C5 (amended): in hosted mode an insert whose response contains no
data (absent or empty) raises: for a dict-shaped response, a `RuntimeError`
carrying the service-reported error message, or Python's rendering `None`
when the service reports no error; for an object-shaped response, the same
`RuntimeError` when the error attribute is a non-empty string, and a bare
`AttributeError` when it is absent or falsy. -/
theorem c5_amended (e : Option String) (d : Option (List Row)) :
    (d = none ∨ d = some [] →
      insert_client_hosted (.dict d e) =
        .error (.runtimeError ("Falha ao inserir no Supabase: " ++ pyStrErr e))) ∧
    (∀ s : String, s.data.isEmpty = false →
      insert_client_hosted (.obj none (some s)) =
        .error (.runtimeError ("Falha ao inserir no Supabase: " ++ s))) ∧
    insert_client_hosted (.obj none none) = .error .attributeError ∧
    insert_client_hosted (.obj (some []) none) = .error .attributeError := by
  refine ⟨?_, ?_, rfl, rfl⟩
  · rintro (rfl | rfl) <;> rfl
  · intro s hs
    simp [insert_client_hosted, unwrapData, unwrapErr, hs, pyStrErr]

/-- Witness for `c5_amended`: concrete no-data responses in both shapes. -/
theorem c5_amended_witness :
    insert_client_hosted (.dict (some []) (some "tabela inexistente")) =
      .error (.runtimeError ("Falha ao inserir no Supabase: " ++
        pyStrErr (some "tabela inexistente"))) ∧
    insert_client_hosted (.obj none (some "falhou")) =
      .error (.runtimeError ("Falha ao inserir no Supabase: " ++ "falhou")) :=
  ⟨(c5_amended (some "tabela inexistente") (some [])).1 (Or.inr rfl),
   (c5_amended none none).2.1 "falhou" (by decide)⟩

/-- Claim C6: in direct-pool mode, with a pool installed, every
`insert_client` and every `get_clients` call releases its connection exactly
once — on the success path and on the statement-error path alike — and the
pool's outstanding-checkout count returns to its prior value. -/
theorem c6_pool_release (avail stmtFails : Bool) (db : DB) (p : Pool)
    (name : String) (address phone : Option String) (limit : Nat) :
    (insert_client_direct avail stmtFails db (some p) name address phone).releases = 1 ∧
    (insert_client_direct avail stmtFails db (some p) name address phone).pool = some p ∧
    (get_clients_direct avail stmtFails db (some p) limit).releases = 1 ∧
    (get_clients_direct avail stmtFails db (some p) limit).pool = some p := by
  cases stmtFails <;>
    simp [insert_client_direct, get_clients_direct, get_conn, init_pool, put_conn]

/-- Claim C7: the list handler does normalize `created_at` to a string, or
`None` when unset — but `ClientOut` declares `created_at: str` (required,
not `Optional`), so a record whose stored `created_at` is unset fails
FastAPI's response-model validation and the request errors instead of
returning that record with `null`. -/
theorem c7_created_at_null :
    serializeRow ⟨1, "Ana", none, none, none⟩ = ⟨1, "Ana", none, none, none⟩ ∧
    serializeRow ⟨2, "Bia", none, none, some 7⟩ = ⟨2, "Bia", none, none, some "7"⟩ ∧
    list_clients_endpoint true false ⟨[⟨2, "Bia", none, none, some 7⟩], 3, 8, true⟩
      (some ⟨0⟩) 100 = (.ok [⟨2, "Bia", none, none, some "7"⟩], some ⟨0⟩) ∧
    list_clients_endpoint true false ⟨[⟨1, "Ana", none, none, none⟩], 2, 5, true⟩
      (some ⟨0⟩) 100 = (.serverError "erro de validacao da resposta", some ⟨0⟩) := by
  exact ⟨rfl, by decide, by decide, by decide⟩

/-- Claim C8, counterexample: after `close_pool` discards the pool, a single
`get_conn` — the acquisition step of every direct-mode operation — silently
re-creates a fresh pool, so the pool is re-initialized mid-process. -/
theorem c8_counterexample :
    close_pool (some ⟨3⟩) = none ∧
    get_conn true (close_pool (some ⟨3⟩)) = .ok ⟨1⟩ ∧
    init_pool true (close_pool (some ⟨3⟩)) = .ok ⟨0⟩ := by
  exact ⟨rfl, rfl, rfl⟩

/-- Claim C8 (amended): while a pool exists, every later `init_pool` call
leaves it unchanged; but the initialize-at-most-once guarantee does not
survive teardown: `close_pool` always resets the state to `None`, after
which any `get_conn` lazily re-creates a pool (or raises when the driver is
unavailable). -/
theorem c8_amended (avail : Bool) (p : Pool) (s : Option Pool) :
    init_pool avail (some p) = .ok p ∧
    close_pool s = none ∧
    get_conn avail none =
      (if avail then .ok ⟨1⟩ else .error (.runtimeError psycopg2MissingMsg)) := by
  cases avail <;> simp [init_pool, get_conn, close_pool]

/-- Claim C9: round-trip in direct-pool mode.  A valid create (stripped
name non-empty) inserts a row carrying exactly the stripped payload values,
and a subsequent list whose limit exceeds the prior table size returns a
sequence containing that exact row — same name, same optional address and
phone (omitted fields read back as `none`), with the backend-assigned id and
timestamp. -/
theorem c9_roundtrip (avail : Bool) (db : DB) (p : Pool) (raw : RawClientIn)
    (limit : Nat) (hname : (pyStrip raw.name).data.isEmpty = false)
    (hlim : db.rows.length < limit) :
    ∃ l, (get_clients_direct avail false
            (create_client_direct avail false db (some p) raw).db
            (create_client_direct avail false db (some p) raw).pool limit).result =
          .ok l ∧
      (⟨db.nextId, pyStrip raw.name, raw.address.map pyStrip,
        raw.phone.map pyStrip, some db.now⟩ : Row) ∈ l := by
  have hval := validateClientIn_some hname
  simp only [create_client_direct, hval, insert_client_direct, get_conn, init_pool,
    put_conn, get_clients_direct]
  refine ⟨_, rfl, ?_⟩
  apply mem_selectClientsDesc
  · simpa using hlim
  · simp

/-- Witness for `c9_roundtrip`: one valid create against the empty table,
then a list with the default limit. -/
theorem c9_roundtrip_witness :
    ∃ l, (get_clients_direct true false
            (create_client_direct true false ⟨[], 1, 0, true⟩ (some ⟨0⟩)
              ⟨" Ana ", some " Rua 1 ", none⟩).db
            (create_client_direct true false ⟨[], 1, 0, true⟩ (some ⟨0⟩)
              ⟨" Ana ", some " Rua 1 ", none⟩).pool 100).result = .ok l ∧
      (⟨1, pyStrip " Ana ", (some " Rua 1 " : Option String).map pyStrip,
        (none : Option String).map pyStrip, some 0⟩ : Row) ∈ l :=
  c9_roundtrip true ⟨[], 1, 0, true⟩ ⟨0⟩ ⟨" Ana ", some " Rua 1 ", none⟩ 100
    (by decide) (by decide)

/-- Claim C10: for every successful create, the response's `name`, `address`
and `phone` are the stripped request-payload values echoed back by the
handler — the same for every database state, since `insert_client` returns
only `id` and `created_at` — while `id` and `created_at` are exactly the
backend-assigned values. -/
theorem c10_echo (avail : Bool) (db : DB) (p : Pool) (raw : RawClientIn)
    (hname : (pyStrip raw.name).data.isEmpty = false) :
    (create_client_direct avail false db (some p) raw).response =
      .ok db.nextId (pyStrNat (some db.now)) (pyStrip raw.name)
        (raw.address.map pyStrip) (raw.phone.map pyStrip) := by
  have hval := validateClientIn_some hname
  simp [create_client_direct, hval, insert_client_direct, get_conn, init_pool, put_conn]

/-- Witness for `c10_echo`: a concrete create whose stored table already
holds an unrelated row. -/
theorem c10_echo_witness :
    (create_client_direct true false ⟨[⟨7, "Z", some "w", none, some 9⟩], 8, 10, true⟩
        (some ⟨0⟩) ⟨" Ana ", none, some " 11 "⟩).response =
      .ok 8 (pyStrNat (some 10)) (pyStrip " Ana ")
        ((none : Option String).map pyStrip) ((some " 11 " : Option String).map pyStrip) :=
  c10_echo true ⟨[⟨7, "Z", some "w", none, some 9⟩], 8, 10, true⟩ ⟨0⟩
    ⟨" Ana ", none, some " 11 "⟩ (by decide)

end Mercia
